import Mathlib

/-!
Verification of the IoT sensor analytics backend (`src/main.py`).

The service is a single request handler built from a data generator
`simulate_sensor_data` and an aggregation step `get_analytics_data`.
We embed both shallowly:

* pandas/numpy floats become exact rationals (`ℚ`); `round(x, 2)` is
  round-half-to-even at two decimal places, the rounding used by
  Python/numpy `round`;
* timestamps become `Int` seconds since the Unix epoch (naive local
  time); `strftime` with format `%Y-%m-%d %H:%M:%S` is implemented in
  full via the standard civil-from-days conversion;
* the random draws of `np.random.choice` / `np.random.normal` are
  modelled by explicit sampling streams passed to the generator: the
  k-th record uses the k-th draw of each stream;
* pandas reductions over a possibly-empty column (`mean`, `max`, `min`)
  return `Option ℚ`, `none` standing for the NaN pandas produces on an
  empty column (and `round(NaN, 2)` is again NaN, i.e. `Option.map`).
-/

namespace IotBackend

/-- The fixed identifier pool of
`np.random.choice(['sensor_alpha', 'sensor_beta', 'sensor_gamma'], num_records)`
(main.py line 41). -/
def sensorIds : List String := ["sensor_alpha", "sensor_beta", "sensor_gamma"]

/-- Round a rational to the nearest integer, ties to even: the rounding
mode of Python/numpy `round`. -/
def roundHalfEven (x : ℚ) : ℤ :=
  if x - ⌊x⌋ < 1/2 then ⌊x⌋
  else if 1/2 < x - ⌊x⌋ then ⌊x⌋ + 1
  else if ⌊x⌋ % 2 = 0 then ⌊x⌋ else ⌊x⌋ + 1

/-- `round(x, 2)` on the rational model. -/
def round2 (x : ℚ) : ℚ := (roundHalfEven (100 * x) : ℚ) / 100

/-- pandas `Series.mean()`: NaN (`none`) on an empty column, otherwise
the sum of the column divided by its length. -/
def pandasMean : List ℚ → Option ℚ
  | [] => none
  | xs => some (xs.sum / xs.length)

/-- pandas `Series.max()`: NaN (`none`) on an empty column. -/
def pandasMax : List ℚ → Option ℚ
  | [] => none
  | h :: t => some (t.foldl max h)

/-- pandas `Series.min()`: NaN (`none`) on an empty column. -/
def pandasMin : List ℚ → Option ℚ
  | [] => none
  | h :: t => some (t.foldl min h)

/-- pandas `Series.value_counts().to_dict()` (main.py line 76): each
distinct value of the column paired with its number of occurrences.
pandas orders the keys by descending count; the spec declares the order
of this mapping semantically insignificant, and we fix the order given
by `List.dedup`.  Key set and multiplicities are those of pandas. -/
def valueCounts (xs : List String) : List (String × Nat) :=
  xs.dedup.map fun s => (s, xs.count s)

/-- Civil Gregorian date `(year, month, day)` from a day number (days
since 1970-01-01), the standard conversion used by datetime libraries. -/
def civilFromDays (z : Int) : Int × Int × Int :=
  let z2 := z + 719468
  let era := z2.ediv 146097
  let doe := z2.emod 146097
  let yoe := (doe - doe.ediv 1460 + doe.ediv 36524 - doe.ediv 146096).ediv 365
  let y := yoe + era * 400
  let doy := doe - (365 * yoe + yoe.ediv 4 - yoe.ediv 100)
  let mp := (5 * doy + 2).ediv 153
  let d := doy - (153 * mp + 2).ediv 5 + 1
  let m := mp + (if mp < 10 then 3 else -9)
  (if m ≤ 2 then y + 1 else y, m, d)

/-- Zero-pad a (nonnegative) number to two digits. -/
def pad2 (n : Int) : String :=
  if n < 10 then String.append ("0") (toString n) else toString n

/-- Zero-pad a (nonnegative) number to four digits. -/
def pad4 (n : Int) : String :=
  if n < 10 then String.append ("000") (toString n)
  else if n < 100 then String.append ("00") (toString n)
  else if n < 1000 then String.append ("0") (toString n)
  else toString n

/-- `timestamp.strftime('%Y-%m-%d %H:%M:%S')` (main.py line 80) on a
naive timestamp given as seconds since the Unix epoch. -/
def fmtTimestamp (t : Int) : String :=
  let ymd := civilFromDays (t.ediv 86400)
  let secs := t.emod 86400
  pad4 ymd.1 ++ "-" ++ pad2 ymd.2.1 ++ "-" ++ pad2 ymd.2.2 ++ " " ++
    pad2 (secs.ediv 3600) ++ ":" ++ pad2 ((secs.emod 3600).ediv 60) ++ ":" ++
    pad2 (secs.emod 60)

/-- One simulated sensor reading: one row of the generator's DataFrame. -/
structure SensorReading where
  timestamp : Int
  sensor_id : String
  temperature : ℚ
  humidity : ℚ
  deriving DecidableEq, Repr

/-- One element of `raw_data`: a reading re-rendered for JSON output
(Step C of the handler, main.py lines 80-83). -/
structure RawRecord where
  timestamp : String
  sensor_id : String
  temperature : ℚ
  humidity : ℚ
  deriving DecidableEq, Repr

/-- The response payload (the `AnalyticsResult` pydantic model,
main.py lines 49-56).  Aggregates are `Option ℚ`: pandas yields NaN
(`none`) for them on an empty frame. -/
structure AnalyticsResult where
  total_records : Nat
  average_temp : Option ℚ
  max_temp : Option ℚ
  min_temp : Option ℚ
  average_humidity : Option ℚ
  records_per_sensor : List (String × Nat)
  raw_data : List RawRecord
  deriving DecidableEq, Repr

/-- The default record count in the signature
`def simulate_sensor_data(num_records: int = 100)` (main.py line 33). -/
def default_num_records : Nat := 100

/-- `simulate_sensor_data` (main.py lines 33-45).  `now` is the
reference instant `pd.Timestamp.now()` in epoch seconds, fixed once per
call; `pd.date_range(end=now, periods=n, freq='T')` yields `n`
one-minute-spaced instants ending at `now`, so row `k` (0-indexed,
oldest first) carries timestamp `now - 60*(n-1-k)` seconds.  The random
draws are supplied as sampling streams: `sidChoice k` is the index
`np.random.choice` draws from the 3-element pool for row `k`, and
`tempSample k` / `humSample k` the `np.random.normal` draws. -/
def simulate_sensor_data (now : Int) (sidChoice : Nat → Fin 3)
    (tempSample humSample : Nat → ℚ) (num_records : Nat) : List SensorReading :=
  (List.range num_records).map fun (k : Nat) =>
    { timestamp := now - 60 * ((num_records : Int) - 1 - (k : Int))
      sensor_id := sensorIds.get (Fin.cast (by rfl) (sidChoice k))
      temperature := tempSample k
      humidity := humSample k }

/-- Steps B-D of `get_analytics_data` (main.py lines 70-86) as a
function of the simulated readings: the analytics dict is computed from
the full-precision columns, then each row is re-rendered (timestamp
formatted, temperature and humidity rounded to 2 decimals) to become
`raw_data`, order preserved. -/
def summarize (rs : List SensorReading) : AnalyticsResult :=
  { total_records := rs.length
    average_temp := Option.map round2 (pandasMean (rs.map SensorReading.temperature))
    max_temp := Option.map round2 (pandasMax (rs.map SensorReading.temperature))
    min_temp := Option.map round2 (pandasMin (rs.map SensorReading.temperature))
    average_humidity := Option.map round2 (pandasMean (rs.map SensorReading.humidity))
    records_per_sensor := valueCounts (rs.map SensorReading.sensor_id)
    raw_data := rs.map fun r =>
      { timestamp := fmtTimestamp r.timestamp
        sensor_id := r.sensor_id
        temperature := round2 r.temperature
        humidity := round2 r.humidity } }

/-- The endpoint handler `GET /api/v1/analytics` (main.py lines 61-86):
simulate 150 fresh records (the literal `num_records=150` of line 67),
then aggregate them. -/
def get_analytics_data (now : Int) (sidChoice : Nat → Fin 3)
    (tempSample humSample : Nat → ℚ) : AnalyticsResult :=
  summarize (simulate_sensor_data now sidChoice tempSample humSample 150)

/-- The aggregation policy the spec rules out: averaging the per-row
temperatures after they were already rounded for `raw_data`. -/
def postRoundedAverageTemp (rs : List SensorReading) : Option ℚ :=
  Option.map round2 (pandasMean (rs.map fun r => round2 r.temperature))

/-- The three readings of the spec's concrete scenario: temperatures
20, 22, 24; humidities 50, 55, 60; sensors alpha, alpha, beta. -/
def scenarioReadings : List SensorReading :=
  [{ timestamp := 0, sensor_id := "sensor_alpha", temperature := 20, humidity := 50 },
   { timestamp := 60, sensor_id := "sensor_alpha", temperature := 22, humidity := 55 },
   { timestamp := 120, sensor_id := "sensor_beta", temperature := 24, humidity := 60 }]

/-- Two readings whose temperatures (0.004 and 0.014) separate the two
aggregation policies: averaging before rounding gives 0.009, which
rounds to 0.01, while averaging the already-rounded rows (0.00, 0.01)
gives 0.005, which rounds half-to-even to 0.00. -/
def separatingReadings : List SensorReading :=
  [{ timestamp := 0, sensor_id := "sensor_alpha", temperature := 1/250, humidity := 0 },
   { timestamp := 60, sensor_id := "sensor_beta", temperature := 7/500, humidity := 0 }]

/-! ### Helper lemmas -/

lemma sum_map_count_dedup (xs : List String) :
    (xs.dedup.map fun s => xs.count s).sum = xs.length := by
  have h := Multiset.toFinset_sum_count_eq (xs : Multiset String)
  simpa [Finset.sum, Multiset.toFinset] using h

lemma foldl_max_spec (xs : List ℚ) (a : ℚ) :
    a ≤ xs.foldl max a ∧ ∀ x ∈ xs, x ≤ xs.foldl max a := by
  induction xs generalizing a with
  | nil => simp
  | cons b t ih =>
    refine ⟨le_trans (le_max_left a b) (ih (max a b)).1, ?_⟩
    intro x hx
    rcases List.mem_cons.1 hx with rfl | hx
    · exact le_trans (le_max_right a x) (ih (max a x)).1
    · exact (ih (max a b)).2 x hx

lemma foldl_min_spec (xs : List ℚ) (a : ℚ) :
    xs.foldl min a ≤ a ∧ ∀ x ∈ xs, xs.foldl min a ≤ x := by
  induction xs generalizing a with
  | nil => simp
  | cons b t ih =>
    refine ⟨le_trans (ih (min a b)).1 (min_le_left a b), ?_⟩
    intro x hx
    rcases List.mem_cons.1 hx with rfl | hx
    · exact le_trans (ih (min a x)).1 (min_le_right a x)
    · exact (ih (min a b)).2 x hx

lemma le_roundHalfEven (x : ℚ) : ⌊x⌋ ≤ roundHalfEven x := by
  unfold roundHalfEven; split_ifs <;> omega

lemma roundHalfEven_le (x : ℚ) : roundHalfEven x ≤ ⌊x⌋ + 1 := by
  unfold roundHalfEven; split_ifs <;> omega

lemma roundHalfEven_mono {x y : ℚ} (h : x ≤ y) : roundHalfEven x ≤ roundHalfEven y := by
  rcases eq_or_lt_of_le (Int.floor_le_floor h) with heq | hlt
  · unfold roundHalfEven
    rw [← heq]
    split_ifs <;> first | omega | linarith
  · have h1 := roundHalfEven_le x
    have h2 := le_roundHalfEven y
    omega

lemma round2_mono {x y : ℚ} (h : x ≤ y) : round2 x ≤ round2 y := by
  unfold round2
  have h1 := roundHalfEven_mono (by linarith : 100 * x ≤ 100 * y)
  have h2 : ((roundHalfEven (100 * x) : ℚ)) ≤ (roundHalfEven (100 * y) : ℚ) := by
    exact_mod_cast h1
  linarith

lemma valueCounts_keys (xs : List String) : (valueCounts xs).map Prod.fst = xs.dedup := by
  simp [valueCounts, List.map_map, Function.comp_def]

lemma valueCounts_vals (xs : List String) :
    (valueCounts xs).map Prod.snd = xs.dedup.map fun s => xs.count s := by
  simp [valueCounts, List.map_map, Function.comp_def]

lemma pandasMean_cons (x : ℚ) (xs : List ℚ) :
    pandasMean (x :: xs) = some ((x :: xs).sum / (x :: xs).length) := rfl

lemma pandasMax_cons (x : ℚ) (xs : List ℚ) :
    pandasMax (x :: xs) = some (xs.foldl max x) := rfl

lemma pandasMin_cons (x : ℚ) (xs : List ℚ) :
    pandasMin (x :: xs) = some (xs.foldl min x) := rfl

lemma mean_le_foldl_max (x : ℚ) (xs : List ℚ) :
    (x :: xs).sum / ((x :: xs).length : ℚ) ≤ xs.foldl max x := by
  have hspec := foldl_max_spec xs x
  have hb : ∀ y ∈ x :: xs, y ≤ xs.foldl max x := by
    intro y hy
    rcases List.mem_cons.1 hy with rfl | hy
    · exact hspec.1
    · exact hspec.2 y hy
  have hsum := List.sum_le_card_nsmul (x :: xs) _ hb
  rw [nsmul_eq_mul] at hsum
  have hlen : (0 : ℚ) < ((x :: xs).length : ℚ) := by
    exact_mod_cast Nat.succ_pos xs.length
  rw [div_le_iff₀ hlen, mul_comm]
  exact hsum

lemma foldl_min_le_mean (x : ℚ) (xs : List ℚ) :
    xs.foldl min x ≤ (x :: xs).sum / ((x :: xs).length : ℚ) := by
  have hspec := foldl_min_spec xs x
  have hb : ∀ y ∈ x :: xs, xs.foldl min x ≤ y := by
    intro y hy
    rcases List.mem_cons.1 hy with rfl | hy
    · exact hspec.1
    · exact hspec.2 y hy
  have hsum := List.card_nsmul_le_sum (x :: xs) _ hb
  rw [nsmul_eq_mul] at hsum
  have hlen : (0 : ℚ) < ((x :: xs).length : ℚ) := by
    exact_mod_cast Nat.succ_pos xs.length
  rw [le_div_iff₀ hlen, mul_comm]
  exact hsum

/-! ### Claim theorems -/

/-- C1: the summarizer does not fail with an `EmptyInput` error on an
empty reading sequence.  It returns a fully-formed result whose four
aggregates are all NaN (`none`): the undefined averages propagate
silently into the payload, which is exactly what the spec demands be
turned into an explicit error. -/
theorem summarize_empty_returns_nan :
    summarize [] =
      { total_records := 0, average_temp := none, max_temp := none, min_temp := none,
        average_humidity := none, records_per_sensor := [], raw_data := [] } := rfl

/-- C2: called with record count 0, the generator does not fail with an
`InvalidArgument` error; it returns the empty reading list (an empty
DataFrame), the very outcome the spec says must be rejected. -/
theorem simulate_zero_returns_empty (now : Int) (sidChoice : Nat → Fin 3)
    (tempSample humSample : Nat → ℚ) :
    simulate_sensor_data now sidChoice tempSample humSample 0 = [] := rfl

/-- C9: every reading produced by the generator (for positive count)
carries a sensor id from the fixed pool
{sensor_alpha, sensor_beta, sensor_gamma}. -/
theorem sensor_id_in_fixed_pool (now : Int) (sidChoice : Nat → Fin 3)
    (tempSample humSample : Nat → ℚ) (count : Nat) (_hc : 0 < count) :
    ∀ r ∈ simulate_sensor_data now sidChoice tempSample humSample count,
      r.sensor_id ∈ sensorIds := by
  intro r hr
  simp only [simulate_sensor_data, List.mem_map, List.mem_range] at hr
  obtain ⟨k, hk, rfl⟩ := hr
  exact List.get_mem _ _ _

/-- Witness for C9 at `count = 1`. -/
theorem sensor_id_in_fixed_pool_witness :
    0 < 1 ∧ ∀ r ∈ simulate_sensor_data 0 (fun _ => (0 : Fin 3)) (fun _ => 0) (fun _ => 0) 1,
      r.sensor_id ∈ sensorIds :=
  ⟨Nat.one_pos,
   sensor_id_in_fixed_pool 0 (fun _ => (0 : Fin 3)) (fun _ => 0) (fun _ => 0) 1 Nat.one_pos⟩

/-- C3: for every positive count, the generator returns exactly `count`
readings; the k-th reading (0-indexed, oldest first) has timestamp
`now - 60*(count-1-k)` seconds, consecutive timestamps increase by
exactly one minute, and the last (newest) reading's timestamp is the
reference instant `now` fixed once per call. -/
theorem simulate_timestamp_grid (now : Int) (sidChoice : Nat → Fin 3)
    (tempSample humSample : Nat → ℚ) (count : Nat) (hc : 0 < count) :
    (simulate_sensor_data now sidChoice tempSample humSample count).length = count ∧
    (∀ k (hk : k < (simulate_sensor_data now sidChoice tempSample humSample count).length),
      ((simulate_sensor_data now sidChoice tempSample humSample count)[k]).timestamp
        = now - 60 * ((count : Int) - 1 - (k : Int))) ∧
    (∀ k (hk : k + 1 < (simulate_sensor_data now sidChoice tempSample humSample count).length),
      ((simulate_sensor_data now sidChoice tempSample humSample count)[k + 1]).timestamp
        = ((simulate_sensor_data now sidChoice tempSample humSample count)[k]).timestamp + 60) ∧
    (∀ (hl : count - 1 < (simulate_sensor_data now sidChoice tempSample humSample count).length),
      ((simulate_sensor_data now sidChoice tempSample humSample count)[count - 1]).timestamp
        = now) := by
  have hts : ∀ k (hk : k < (simulate_sensor_data now sidChoice tempSample humSample count).length),
      ((simulate_sensor_data now sidChoice tempSample humSample count)[k]).timestamp
        = now - 60 * ((count : Int) - 1 - (k : Int)) := by
    intro k hk
    simp [simulate_sensor_data]
  refine ⟨by simp [simulate_sensor_data], hts, ?_, ?_⟩
  · intro k hk
    rw [hts (k + 1) hk, hts k (by omega)]
    push_cast
    ring
  · intro hl
    rw [hts (count - 1) hl]
    have hcast : (((count - 1 : Nat)) : Int) = (count : Int) - 1 := by omega
    rw [hcast]
    ring

/-- Witness for C3 at `count = 3`. -/
theorem simulate_timestamp_grid_witness :
    0 < 3 ∧
    ((simulate_sensor_data 0 (fun _ => (0 : Fin 3)) (fun _ => 0) (fun _ => 0) 3).length = 3 ∧
    (∀ k (hk : k < (simulate_sensor_data 0 (fun _ => (0 : Fin 3)) (fun _ => 0) (fun _ => 0) 3).length),
      ((simulate_sensor_data 0 (fun _ => (0 : Fin 3)) (fun _ => 0) (fun _ => 0) 3)[k]).timestamp
        = 0 - 60 * ((3 : Int) - 1 - (k : Int))) ∧
    (∀ k (hk : k + 1 < (simulate_sensor_data 0 (fun _ => (0 : Fin 3)) (fun _ => 0) (fun _ => 0) 3).length),
      ((simulate_sensor_data 0 (fun _ => (0 : Fin 3)) (fun _ => 0) (fun _ => 0) 3)[k + 1]).timestamp
        = ((simulate_sensor_data 0 (fun _ => (0 : Fin 3)) (fun _ => 0) (fun _ => 0) 3)[k]).timestamp + 60) ∧
    (∀ (hl : 3 - 1 < (simulate_sensor_data 0 (fun _ => (0 : Fin 3)) (fun _ => 0) (fun _ => 0) 3).length),
      ((simulate_sensor_data 0 (fun _ => (0 : Fin 3)) (fun _ => 0) (fun _ => 0) 3)[3 - 1]).timestamp
        = 0)) :=
  ⟨Nat.succ_pos 2,
   simulate_timestamp_grid 0 (fun _ => (0 : Fin 3)) (fun _ => 0) (fun _ => 0) 3 (Nat.succ_pos 2)⟩

/-- C4: for every non-empty input, `raw_data` has exactly
`total_records` entries, and the k-th entry re-renders the k-th input
reading in place: timestamp formatted as `YYYY-MM-DD HH:MM:SS`,
temperature and humidity rounded to 2 decimals, sensor id unchanged —
order preserved from the input, oldest first. -/
theorem raw_data_roundtrip (rs : List SensorReading) (h : rs ≠ []) :
    (summarize rs).raw_data.length = (summarize rs).total_records ∧
    (∀ k (hk1 : k < rs.length) (hk2 : k < (summarize rs).raw_data.length),
      ((summarize rs).raw_data[k])
        = { timestamp := fmtTimestamp (rs[k]).timestamp
            sensor_id := (rs[k]).sensor_id
            temperature := round2 (rs[k]).temperature
            humidity := round2 (rs[k]).humidity }) := by
  constructor
  · simp [summarize]
  · intro k hk1 hk2
    simp [summarize]

/-- Witness for C4 on the three scenario readings. -/
theorem raw_data_roundtrip_witness :
    scenarioReadings ≠ [] ∧
    ((summarize scenarioReadings).raw_data.length = (summarize scenarioReadings).total_records ∧
    (∀ k (hk1 : k < scenarioReadings.length)
        (hk2 : k < (summarize scenarioReadings).raw_data.length),
      ((summarize scenarioReadings).raw_data[k])
        = { timestamp := fmtTimestamp (scenarioReadings[k]).timestamp
            sensor_id := (scenarioReadings[k]).sensor_id
            temperature := round2 (scenarioReadings[k]).temperature
            humidity := round2 (scenarioReadings[k]).humidity })) :=
  ⟨by simp [scenarioReadings], raw_data_roundtrip scenarioReadings (by simp [scenarioReadings])⟩

/-- C5: for every non-empty reading sequence (readings carry ids from
the fixed pool, as the data model prescribes), `records_per_sensor` is
a mapping (no duplicate keys) whose keys are exactly the sensor ids
present in the input, each mapped to the number of readings with that
id; the counts sum to `total_records` and every key lies in the fixed
pool. -/
theorem records_per_sensor_spec (rs : List SensorReading) (h1 : rs ≠ [])
    (h2 : ∀ r ∈ rs, r.sensor_id ∈ sensorIds) :
    ((summarize rs).records_per_sensor.map Prod.fst).Nodup ∧
    (∀ s, s ∈ (summarize rs).records_per_sensor.map Prod.fst
        ↔ s ∈ rs.map SensorReading.sensor_id) ∧
    (∀ p ∈ (summarize rs).records_per_sensor,
        p.2 = (rs.map SensorReading.sensor_id).count p.1) ∧
    ((summarize rs).records_per_sensor.map Prod.snd).sum = (summarize rs).total_records ∧
    (∀ p ∈ (summarize rs).records_per_sensor, p.1 ∈ sensorIds) := by
  have hrps : (summarize rs).records_per_sensor
      = valueCounts (rs.map SensorReading.sensor_id) := rfl
  refine ⟨?_, ?_, ?_, ?_, ?_⟩
  · rw [hrps, valueCounts_keys]
    exact List.nodup_dedup _
  · intro s
    rw [hrps, valueCounts_keys]
    exact List.mem_dedup
  · intro p hp
    simp only [summarize, valueCounts, List.mem_map] at hp
    obtain ⟨s, hs, rfl⟩ := hp
    rfl
  · rw [hrps, valueCounts_vals, sum_map_count_dedup]
    simp [summarize]
  · intro p hp
    simp only [summarize, valueCounts, List.mem_map] at hp
    obtain ⟨s, hs, rfl⟩ := hp
    obtain ⟨r, hr, rfl⟩ := List.mem_map.1 (List.mem_dedup.1 hs)
    exact h2 r hr

/-- Witness for C5 on the three scenario readings. -/
theorem records_per_sensor_spec_witness :
    (scenarioReadings ≠ [] ∧ ∀ r ∈ scenarioReadings, r.sensor_id ∈ sensorIds) ∧
    (((summarize scenarioReadings).records_per_sensor.map Prod.fst).Nodup ∧
    (∀ s, s ∈ (summarize scenarioReadings).records_per_sensor.map Prod.fst
        ↔ s ∈ scenarioReadings.map SensorReading.sensor_id) ∧
    (∀ p ∈ (summarize scenarioReadings).records_per_sensor,
        p.2 = (scenarioReadings.map SensorReading.sensor_id).count p.1) ∧
    ((summarize scenarioReadings).records_per_sensor.map Prod.snd).sum
        = (summarize scenarioReadings).total_records ∧
    (∀ p ∈ (summarize scenarioReadings).records_per_sensor, p.1 ∈ sensorIds)) :=
  ⟨⟨by simp [scenarioReadings], by decide⟩,
   records_per_sensor_spec scenarioReadings (by simp [scenarioReadings]) (by decide)⟩

/-- C6: for every non-empty reading sequence the three temperature
aggregates are defined (not NaN) and satisfy
`min_temp ≤ average_temp ≤ max_temp` — here proved exactly, with no
rounding slack needed, since rounding half-to-even is monotone. -/
theorem min_avg_max_order (rs : List SensorReading) (h : rs ≠ []) :
    ∃ mn av mx, (summarize rs).min_temp = some mn ∧
      (summarize rs).average_temp = some av ∧
      (summarize rs).max_temp = some mx ∧ mn ≤ av ∧ av ≤ mx := by
  obtain ⟨r, t, rfl⟩ := List.exists_cons_of_ne_nil h
  refine ⟨_, _, _, rfl, rfl, rfl, round2_mono ?_, round2_mono ?_⟩
  · exact foldl_min_le_mean r.temperature (t.map SensorReading.temperature)
  · exact mean_le_foldl_max r.temperature (t.map SensorReading.temperature)

/-- Witness for C6 on the three scenario readings. -/
theorem min_avg_max_order_witness :
    scenarioReadings ≠ [] ∧
    ∃ mn av mx, (summarize scenarioReadings).min_temp = some mn ∧
      (summarize scenarioReadings).average_temp = some av ∧
      (summarize scenarioReadings).max_temp = some mx ∧ mn ≤ av ∧ av ≤ mx :=
  ⟨by simp [scenarioReadings], min_avg_max_order scenarioReadings (by simp [scenarioReadings])⟩

/-- C7: each aggregate is computed from the full-precision column and
rounded once at the end — the mean/max/min of the unrounded
temperatures and humidities — not from the per-row values already
rounded for `raw_data`.  On `separatingReadings` the two policies
disagree: the code yields 0.01 while averaging the pre-rounded rows
would yield 0.00. -/
theorem aggregates_use_full_precision (rs : List SensorReading) (h : rs ≠ []) :
    (summarize rs).average_temp
        = some (round2 ((rs.map SensorReading.temperature).sum
            / ((rs.map SensorReading.temperature).length : ℚ))) ∧
    (summarize rs).average_humidity
        = some (round2 ((rs.map SensorReading.humidity).sum
            / ((rs.map SensorReading.humidity).length : ℚ))) ∧
    (∃ x xs, rs.map SensorReading.temperature = x :: xs ∧
      (summarize rs).max_temp = some (round2 (xs.foldl max x)) ∧
      (summarize rs).min_temp = some (round2 (xs.foldl min x))) ∧
    (summarize separatingReadings).average_temp = some (1/100) ∧
    postRoundedAverageTemp separatingReadings = some 0 := by
  obtain ⟨r, t, rfl⟩ := List.exists_cons_of_ne_nil h
  refine ⟨rfl, rfl, ⟨r.temperature, t.map SensorReading.temperature, rfl, rfl, rfl⟩, ?_, ?_⟩
  · have h1 : pandasMean [(1 : ℚ)/250, 7/500] = some (9/1000) := by
      rw [pandasMean_cons]
      norm_num
    have h2 : round2 (9/1000) = 1/100 := by norm_num [round2, roundHalfEven]
    calc (summarize separatingReadings).average_temp
        = Option.map round2 (pandasMean [(1 : ℚ)/250, 7/500]) := rfl
      _ = some (round2 (9/1000)) := by rw [h1]; rfl
      _ = some (1/100) := by rw [h2]
  · have e1 : round2 (1/250) = 0 := by norm_num [round2, roundHalfEven]
    have e2 : round2 (7/500) = 1/100 := by norm_num [round2, roundHalfEven]
    have h3 : pandasMean [(0 : ℚ), 1/100] = some (1/200) := by
      rw [pandasMean_cons]
      norm_num
    have h4 : round2 (1/200) = 0 := by norm_num [round2, roundHalfEven]
    calc postRoundedAverageTemp separatingReadings
        = Option.map round2 (pandasMean [round2 (1/250), round2 (7/500)]) := rfl
      _ = Option.map round2 (pandasMean [(0 : ℚ), 1/100]) := by rw [e1, e2]
      _ = some (round2 (1/200)) := by rw [h3]; rfl
      _ = some 0 := by rw [h4]

/-- Witness for C7 on the three scenario readings. -/
theorem aggregates_use_full_precision_witness :
    scenarioReadings ≠ [] ∧
    ((summarize scenarioReadings).average_temp
        = some (round2 ((scenarioReadings.map SensorReading.temperature).sum
            / ((scenarioReadings.map SensorReading.temperature).length : ℚ))) ∧
    (summarize scenarioReadings).average_humidity
        = some (round2 ((scenarioReadings.map SensorReading.humidity).sum
            / ((scenarioReadings.map SensorReading.humidity).length : ℚ))) ∧
    (∃ x xs, scenarioReadings.map SensorReading.temperature = x :: xs ∧
      (summarize scenarioReadings).max_temp = some (round2 (xs.foldl max x)) ∧
      (summarize scenarioReadings).min_temp = some (round2 (xs.foldl min x))) ∧
    (summarize separatingReadings).average_temp = some (1/100) ∧
    postRoundedAverageTemp separatingReadings = some 0) :=
  ⟨by simp [scenarioReadings],
   aggregates_use_full_precision scenarioReadings (by simp [scenarioReadings])⟩

/-- C8: on the spec's concrete scenario (temperatures 20, 22, 24;
humidities 50, 55, 60; sensors alpha, alpha, beta) the summarizer
returns `total_records = 3`, `average_temp = 22.00`,
`max_temp = 24.00`, `min_temp = 20.00`, `average_humidity = 55.00` and
`records_per_sensor = {sensor_alpha: 2, sensor_beta: 1}`. -/
theorem concrete_scenario_summary :
    (summarize scenarioReadings).total_records = 3 ∧
    (summarize scenarioReadings).average_temp = some 22 ∧
    (summarize scenarioReadings).max_temp = some 24 ∧
    (summarize scenarioReadings).min_temp = some 20 ∧
    (summarize scenarioReadings).average_humidity = some 55 ∧
    (summarize scenarioReadings).records_per_sensor
        = [("sensor_alpha", 2), ("sensor_beta", 1)] := by
  refine ⟨rfl, ?_, ?_, ?_, ?_, by decide⟩
  · norm_num [summarize, scenarioReadings, pandasMean_cons, round2, roundHalfEven]
  · norm_num [summarize, scenarioReadings, pandasMax_cons, round2, roundHalfEven, max_def]
  · norm_num [summarize, scenarioReadings, pandasMin_cons, round2, roundHalfEven, min_def]
  · norm_num [summarize, scenarioReadings, pandasMean_cons, round2, roundHalfEven]

/-- C10: the endpoint invokes the generator with the fixed literal 150,
overriding the generator's own default of 100, so every successful
response has `total_records = 150` and exactly 150 `raw_data` rows. -/
theorem endpoint_uses_count_150 (now : Int) (sidChoice : Nat → Fin 3)
    (tempSample humSample : Nat → ℚ) :
    get_analytics_data now sidChoice tempSample humSample
        = summarize (simulate_sensor_data now sidChoice tempSample humSample 150) ∧
    (get_analytics_data now sidChoice tempSample humSample).total_records = 150 ∧
    (get_analytics_data now sidChoice tempSample humSample).raw_data.length = 150 ∧
    default_num_records = 100 := by
  refine ⟨rfl, ?_, ?_, rfl⟩ <;>
    simp [get_analytics_data, summarize, simulate_sensor_data, default_num_records]

end IotBackend
